import Mathlib

/-!
Shallow embedding of the pose-detector core of reptor-web-sandbox
(src/lib/pose-detection/poseDetection.ts) and of the geometry and
selection utilities it imports, together with theorems settling the
behavioural claims about the facade lifecycle and the yolo11 decode
pipeline.

Numbers are modelled as rationals; machine floats introduce no claim-level
behaviour here beyond rounding, which is modelled explicitly where the
source rounds.  External inference (the TFJS graph model, the
posedetection runtimes) is passed in as data.
-/

namespace Reptor

/-- Supported TFJS model identifiers (source: type TfjsModelType). -/
inductive TfjsModelType where
  | movenetLightning
  | blazeposeLite
  | yolo11
deriving DecidableEq, Repr

/-- Backend selection (source: 'webgl' | 'wasm'). -/
inductive Backend where
  | webgl
  | wasm
deriving DecidableEq, Repr

/-- One anatomical landmark (source: type Keypoint). -/
structure Keypoint where
  x : ℚ
  y : ℚ
  z : Option ℚ := none
  visibility : Option ℚ := none
  name : Option String := none
deriving DecidableEq, Repr

/-- One detection event (source: interface PoseResult). -/
structure PoseResult where
  keypoints : List Keypoint
  keypoints3D : Option (List Keypoint) := none
  timestamp : Option ℚ := none
deriving DecidableEq, Repr

/-- JavaScript Math.round on rationals: floor of x + 1/2 (round half up). -/
def jsRound (q : ℚ) : ℤ := ⌊q + 1/2⌋

/-- Letterbox geometry: scale, resized extent, left/top padding, and the
square target size the geometry was derived from (spec section 3:
derived from (sourceWidth, sourceHeight, targetSize); the target size is
kept in the record because the inverse map needs it to undo the
normalized convention). -/
structure Letterbox where
  scale : ℚ
  resizedWidth : ℤ
  resizedHeight : ℤ
  dx : ℤ
  dy : ℤ
  targetSize : ℕ
deriving DecidableEq, Repr

/-- Modelled from the spec: computeLetterbox is imported from the package
royng163/reptor-core whose source is not in this repository.  Spec 4.3:
scale = min(S / sourceWidth, S / sourceHeight); resizedWidth =
round(sourceWidth * scale), resizedHeight = round(sourceHeight * scale);
dx = floor((S - resizedWidth) / 2), dy = floor((S - resizedHeight) / 2). -/
def computeLetterbox (sourceWidth sourceHeight S : ℕ) : Letterbox :=
  let scale : ℚ := min ((S : ℚ) / sourceWidth) ((S : ℚ) / sourceHeight)
  let rw : ℤ := jsRound (sourceWidth * scale)
  let rh : ℤ := jsRound (sourceHeight * scale)
  { scale := scale
    resizedWidth := rw
    resizedHeight := rh
    dx := ⌊((S : ℚ) - rw) / 2⌋
    dy := ⌊((S : ℚ) - rh) / 2⌋
    targetSize := S }

/-- Modelled from the spec: mapFromLetterbox is imported from
royng163/reptor-core whose source is not in this repository.  Spec 4.3
coordinate restoration: if normalized, first scale by S to obtain
model-input pixels; then invert the letterbox, xSource = (xModel - dx) /
scale, ySource = (yModel - dy) / scale.  The source-dimension arguments
mirror the call signature in poseDetection.ts line 252. -/
def mapFromLetterbox (x y : ℚ) (srcW srcH : ℕ) (letter : Letterbox)
    (normalized : Bool) : ℚ × ℚ :=
  let _ := srcW
  let _ := srcH
  let xm := if normalized then x * (letter.targetSize : ℚ) else x
  let ym := if normalized then y * (letter.targetSize : ℚ) else y
  ((xm - (letter.dx : ℚ)) / letter.scale, (ym - (letter.dy : ℚ)) / letter.scale)

/-- Modelled from the spec: the forward letterbox transform acting on a
point in source-image pixels (spec 4.3 step 4: resized content placed at
offset (dx, dy) after scaling). -/
def letterboxForward (x y : ℚ) (letter : Letterbox) : ℚ × ℚ :=
  (x * letter.scale + (letter.dx : ℚ), y * letter.scale + (letter.dy : ℚ))

/-- Modelled from the spec: the forward letterbox transform followed by
normalization to [0,1] model coordinates (division by the target size S),
producing the normalized convention of spec 4.3. -/
def letterboxForwardNormalized (x y : ℚ) (letter : Letterbox) : ℚ × ℚ :=
  ((x * letter.scale + (letter.dx : ℚ)) / (letter.targetSize : ℚ),
   (y * letter.scale + (letter.dy : ℚ)) / (letter.targetSize : ℚ))

/-- Axis-aligned box in the [y1, x1, y2, x2] layout the decode builds
(poseDetection.ts line 237). -/
structure Box where
  y1 : ℚ
  x1 : ℚ
  y2 : ℚ
  x2 : ℚ
deriving DecidableEq, Repr

/-- Signed area of a box in the [y1, x1, y2, x2] layout. -/
def Box.area (b : Box) : ℚ := (b.y2 - b.y1) * (b.x2 - b.x1)

/-- Modelled from the spec: Intersection-over-Union of two boxes
(glossary; used by the selection utility, whose implementation
tf.image.nonMaxSuppressionAsync is outside this repository). -/
def iou (a b : Box) : ℚ :=
  let interH := max 0 (min a.y2 b.y2 - max a.y1 b.y1)
  let interW := max 0 (min a.x2 b.x2 - max a.x1 b.x1)
  let inter := interH * interW
  let union := a.area + b.area - inter
  if union ≤ 0 then 0 else inter / union

/-- Highest-scoring candidate, ties broken by original order (spec 4.3:
stable, ties broken by original candidate order).  Candidates are
(original index, box, score). -/
def pickBest : List (ℕ × Box × ℚ) → Option (ℕ × Box × ℚ)
  | [] => none
  | c :: rest =>
    match pickBest rest with
    | none => some c
    | some d => if d.2.2 > c.2.2 then some d else some c

/-- Drop the emitted candidate and every remaining candidate whose IoU
with it exceeds the threshold (spec 4.3 selection: discard every
remaining candidate whose IoU with the picked box exceeds the
threshold). -/
def suppressBy (best : ℕ × Box × ℚ) (iouThreshold : ℚ) :
    List (ℕ × Box × ℚ) → List (ℕ × Box × ℚ)
  | [] => []
  | c :: rest =>
    if c.1 ≠ best.1 ∧ iou c.2.1 best.2.1 ≤ iouThreshold then
      c :: suppressBy best iouThreshold rest
    else suppressBy best iouThreshold rest

/-- One greedy selection round per unit of fuel: emit the best remaining
candidate, discard it and the candidates it suppresses (spec 4.3
selection; the fuel is the maximum output count). -/
def nmsGreedy : ℕ → List (ℕ × Box × ℚ) → ℚ → List ℕ
  | 0, _, _ => []
  | Nat.succ fuel, cands, iouThreshold =>
    match pickBest cands with
    | none => []
    | some best =>
      best.1 :: nmsGreedy fuel (suppressBy best iouThreshold cands) iouThreshold

/-- Candidates that clear the minimum score threshold (spec 4.3: repeat
until no candidates remain above a minimum score threshold). -/
def filterAboveScore (scoreThreshold : ℚ) :
    List (ℕ × Box × ℚ) → List (ℕ × Box × ℚ)
  | [] => []
  | c :: rest =>
    if scoreThreshold < c.2.2 then c :: filterAboveScore scoreThreshold rest
    else filterAboveScore scoreThreshold rest

/-- Pair each box and score with its original candidate index. -/
def withIndices : ℕ → List Box → List ℚ → List (ℕ × Box × ℚ)
  | _, [], _ => []
  | _, _, [] => []
  | i, b :: bs, s :: ss => (i, b, s) :: withIndices (i + 1) bs ss

/-- Modelled from the spec: non-max suppression as called at
poseDetection.ts line 242 (tf.image.nonMaxSuppressionAsync, outside this
repository).  Spec 4.3: greedily pick the highest-scoring box, discard
overlapping candidates above the IoU threshold, stop when no candidate
remains above the minimum score threshold or the output cap is reached.
Returns indices into the original candidate list. -/
def nonMaxSuppression (boxes : List Box) (scores : List ℚ) (maxOutput : ℕ)
    (iouThreshold scoreThreshold : ℚ) : List ℕ :=
  nmsGreedy maxOutput (filterAboveScore scoreThreshold (withIndices 0 boxes scores))
    iouThreshold

/-- Channel c of one output row (source: tf.slice on the transposed
output at a fixed last-dimension offset). -/
def rowChannel (row : List ℚ) (c : ℕ) : ℚ := row.getD c 0

/-- Box corners from one row (poseDetection.ts lines 232-238):
x1 = cx - w/2, y1 = cy - h/2, box = [y1, x1, y1 + h, x1 + w]. -/
def rowBox (row : List ℚ) : Box :=
  let cx := rowChannel row 0
  let cy := rowChannel row 1
  let w := rowChannel row 2
  let h := rowChannel row 3
  let x1 := cx - w / 2
  let y1 := cy - h / 2
  { y1 := y1, x1 := x1, y2 := y1 + h, x2 := x1 + w }

/-- Objectness score of one row: channel 4 (poseDetection.ts line 240). -/
def rowScore (row : List ℚ) : ℚ := rowChannel row 4

/-- Group a flat channel list into (x, y, v) triples (the reshape to
[17, 3] at poseDetection.ts line 246). -/
def chunk3 : List ℚ → List (ℚ × ℚ × ℚ)
  | x :: y :: v :: rest => (x, y, v) :: chunk3 rest
  | _ => []

/-- Keypoint triples of one row: channels from 5 on (poseDetection.ts
line 241), reshaped to triples. -/
def rowLandmarks (row : List ℚ) : List (ℚ × ℚ × ℚ) := chunk3 (row.drop 5)

/-- Per-keypoint restoration (poseDetection.ts lines 249-254): the
normalized heuristic x <= 1 and y <= 1 decides the convention for this
keypoint, the point is mapped through the letterbox inverse, and the
third channel is passed through as visibility. -/
def mapYoloKeypoint (srcW srcH : ℕ) (letter : Letterbox)
    (kp : ℚ × ℚ × ℚ) : Keypoint :=
  let normalized := decide (kp.1 ≤ 1 ∧ kp.2.1 ≤ 1)
  let mapped := mapFromLetterbox kp.1 kp.2.1 srcW srcH letter normalized
  { x := mapped.1, y := mapped.2, visibility := some kp.2.2 }

/-- The yolo11 decode (poseDetection.ts lines 206-260) on one frame's
output rows.  The rows are the transposed model output [N, C]; source
dimensions come from the input element.  The selection's first survivor
is gathered; with zero survivors idxArr[0] is undefined and
tf.gather(landmarks, undefined) throws, modelled as the error branch. -/
def detectYolo11Decode (srcW srcH : ℕ) (rows : List (List ℚ))
    (timestamp : Option ℚ) : Except String PoseResult :=
  let inputSize : ℕ := 640
  let letter := computeLetterbox srcW srcH inputSize
  let boxes := rows.map rowBox
  let scores := rows.map rowScore
  let selected := nonMaxSuppression boxes scores 50 (45/100) (3/10)
  match selected.head? with
  | none => .error "gather: indices is undefined"
  | some topIdx =>
    match rows.get? topIdx with
    | none => .error "gather: index out of range"
    | some row =>
      .ok { keypoints := (rowLandmarks row).map (mapYoloKeypoint srcW srcH letter)
            keypoints3D := some []
            timestamp := timestamp }

/-- Keypoint as produced by the posedetection runtimes (score instead of
visibility; poseDetection.ts lines 182-197 renames it). -/
structure EstimatedKeypoint where
  x : ℚ
  y : ℚ
  z : Option ℚ := none
  score : Option ℚ := none
  name : Option String := none
deriving DecidableEq, Repr

/-- One pose as returned by estimatePoses (poseDetection.ts line 174). -/
structure EstimatedPose where
  keypoints : List EstimatedKeypoint
  keypoints3D : Option (List EstimatedKeypoint) := none
deriving DecidableEq, Repr

/-- Instance fields of class TfjsPoseDetector (poseDetection.ts lines
93-100).  Model handles and pending promises are identified by numbers. -/
structure DetectorState where
  detector : Option ℕ := none
  yoloDetector : Option ℕ := none
  modelType : TfjsModelType := .blazeposeLite
  loadedModelType : Option TfjsModelType := none
  backend : Backend := .webgl
  solutionPath : String := "https://cdn.jsdelivr.net/npm/@mediapipe/pose"
  initializingPromise : Option ℕ := none
deriving DecidableEq, Repr

/-- Options accepted by initialize (source: interface InitOptions). -/
structure InitOptions where
  model : Option TfjsModelType := none
  backend : Option Backend := none
  solutionPath : Option String := none
deriving DecidableEq, Repr

/-- Option application at the top of initialize (poseDetection.ts lines
109-111): each present option overwrites the corresponding field. -/
def applyOptions (st : DetectorState) (opts : InitOptions) : DetectorState :=
  let st := match opts.model with
    | some m => { st with modelType := m }
    | none => st
  let st := match opts.backend with
    | some b => { st with backend := b }
    | none => st
  match opts.solutionPath with
  | some p => { st with solutionPath := p }
  | none => st

/-- What the synchronous part of initialize decides to do. -/
inductive InitAction where
  | awaitExisting (p : ℕ)
  | sameModelSkip
  | startLoad (p : ℕ)
deriving DecidableEq, Repr

/-- Synchronous part of initialize (poseDetection.ts lines 108-122):
apply options; if a load is in flight, return that same promise (no new
load); if the requested model is already loaded, return without loading;
otherwise store a fresh promise as the in-flight marker and start the
load. -/
def initializeEntry (st : DetectorState) (opts : InitOptions)
    (freshPromise : ℕ) : DetectorState × InitAction :=
  let st := applyOptions st opts
  match st.initializingPromise with
  | some p => (st, .awaitExisting p)
  | none =>
    if st.loadedModelType = some st.modelType then (st, .sameModelSkip)
    else ({ st with initializingPromise := some freshPromise },
          .startLoad freshPromise)

/-- Outcome of the asynchronous load body. -/
inductive LoadOutcome where
  | success (handle : ℕ)
  | failure
deriving DecidableEq, Repr

/-- Completion of the load (poseDetection.ts lines 122-161): on success
the adapter handle is stored per model family and loadedModelType is
set; on failure neither is; the finally clause clears the in-flight
marker in both cases. -/
def completeInitialize (st : DetectorState) (outcome : LoadOutcome) :
    DetectorState :=
  let st :=
    match outcome with
    | .failure => st
    | .success h =>
      let st :=
        match st.modelType with
        | .blazeposeLite => { st with detector := some h }
        | .movenetLightning => { st with detector := some h }
        | .yolo11 => { st with yoloDetector := some h, detector := none }
      { st with loadedModelType := some st.modelType }
  { st with initializingPromise := none }

/-- close (poseDetection.ts lines 262-265): disposes the posedetection
handle and nulls it.  No other field is touched: yoloDetector and
loadedModelType are retained as-is. -/
def close (st : DetectorState) : DetectorState :=
  { st with detector := none }

/-- detect (poseDetection.ts lines 164-204).  External inference results
are parameters: yoloRows feeds the yolo11 decode, estimatedPoses is what
estimatePoses would return.  The result carries the list of console
warnings emitted; a thrown error is the Except error branch. -/
def detect (st : DetectorState) (srcW srcH : ℕ) (yoloRows : List (List ℚ))
    (estimatedPoses : List EstimatedPose) (timestamp : Option ℚ) :
    Except String (PoseResult × List String) :=
  if st.detector = none ∧ st.yoloDetector = none then
    .ok ({ keypoints := [], keypoints3D := some [], timestamp := timestamp },
         ["Detector not initialized, returning empty result."])
  else if st.modelType = .yolo11 then
    (detectYolo11Decode srcW srcH yoloRows timestamp).map fun r => (r, [])
  else
    match estimatedPoses.head? with
    | none =>
      .ok ({ keypoints := [], keypoints3D := some [], timestamp := timestamp }, [])
    | some p =>
      .ok ({ keypoints := p.keypoints.map fun kp =>
               { x := kp.x, y := kp.y, z := kp.z, visibility := kp.score,
                 name := kp.name }
             keypoints3D := some ((p.keypoints3D.getD []).map fun kp =>
               { x := kp.x, y := kp.y, z := kp.z, visibility := kp.score,
                 name := kp.name })
             timestamp := timestamp }, [])

/-- Heap of live accelerated-memory tensors, identified by allocation
order. -/
structure TensorHeap where
  live : List ℕ
  next : ℕ
deriving DecidableEq, Repr

/-- Allocate one tensor (any tf op that produces a tensor). -/
def TensorHeap.alloc (h : TensorHeap) : ℕ × TensorHeap :=
  (h.next, { live := h.live ++ [h.next], next := h.next + 1 })

/-- Dispose one tensor (tensor.dispose or tf.tidy cleanup). -/
def TensorHeap.dispose (h : TensorHeap) (t : ℕ) : TensorHeap :=
  { h with live := h.live.erase t }

/-- Input-tensor preparation (poseDetection.ts lines 213-224): the
tf.tidy allocates fromPixels, resizeBilinear, pad and div results and
disposes all of them except the returned expandDims tensor. -/
def allocInputTensor (h0 : TensorHeap) : ℕ × TensorHeap :=
  let (img, h) := h0.alloc
  let (resized, h) := h.alloc
  let (padded, h) := h.alloc
  let (normalizedT, h) := h.alloc
  let (tensor4d, h) := h.alloc
  let h := h.dispose img
  let h := h.dispose resized
  let h := h.dispose padded
  let h := h.dispose normalizedT
  (tensor4d, h)

/-- Box construction (poseDetection.ts lines 232-238): the tf.tidy
allocates the w/h slices, the cx/cy slices, the two subs, the two adds,
the concat, and returns the squeeze; everything but the returned tensor
is disposed by tidy. -/
def allocBoxesTidy (h0 : TensorHeap) : ℕ × TensorHeap :=
  let (sliceW, h) := h0.alloc
  let (sliceH, h) := h.alloc
  let (sliceCx, h) := h.alloc
  let (x1, h) := h.alloc
  let (sliceCy, h) := h.alloc
  let (y1, h) := h.alloc
  let (addY, h) := h.alloc
  let (addX, h) := h.alloc
  let (cat, h) := h.alloc
  let (boxes, h) := h.alloc
  let h := h.dispose sliceW
  let h := h.dispose sliceH
  let h := h.dispose sliceCx
  let h := h.dispose x1
  let h := h.dispose sliceCy
  let h := h.dispose y1
  let h := h.dispose addY
  let h := h.dispose addX
  let h := h.dispose cat
  (boxes, h)

/-- Tensor allocation/disposal trace of detectYolo11 on the successful
path (poseDetection.ts lines 206-260): after the input tidy, the try
block allocates out (execute), transpose, the boxes tidy result, the
score slice and squeeze, the landmark slice and squeeze, the selection
result, the gather and the reshape; the finally block disposes only
tensor4d.  Returns the ids allocated outside any tidy together with the
final heap. -/
def detectYolo11TensorTrace (h0 : TensorHeap) : List ℕ × TensorHeap :=
  let (tensor4d, h) := allocInputTensor h0
  let (out, h) := h.alloc
  let (transposeT, h) := h.alloc
  let (boxes, h) := allocBoxesTidy h
  let (sliceScores, h) := h.alloc
  let (scores, h) := h.alloc
  let (sliceLandmarks, h) := h.alloc
  let (landmarks, h) := h.alloc
  let (selected, h) := h.alloc
  let (gathered, h) := h.alloc
  let (kpTensor, h) := h.alloc
  let h := h.dispose tensor4d
  ([out, transposeT, boxes, sliceScores, scores, sliceLandmarks, landmarks,
    selected, gathered, kpTensor], h)

/-- State after a successful sequential load of movenet-lightning from a
fresh detector. -/
def afterMovenetLoad : DetectorState :=
  completeInitialize
    ((initializeEntry {} { model := some TfjsModelType.movenetLightning } 0).1)
    (.success 1)

/-- State after a successful sequential load of yolo11 from a fresh
detector. -/
def afterYoloLoad : DetectorState :=
  completeInitialize
    ((initializeEntry {} { model := some TfjsModelType.yolo11 } 0).1)
    (.success 1)

/-- A candidate row with degenerate box dimensions (w = 0, h = 0) and the
highest objectness score of its frame. -/
def degenerateRow : List ℚ := [5, 5, 0, 0, 9/10] ++ List.replicate 51 2

/-- A well-formed candidate row with a lower objectness score. -/
def healthyRow : List ℚ := [100, 100, 50, 80, 1/2] ++ List.replicate 51 3

/-- A candidate row whose objectness score is below the selection score
threshold 0.3, so selection yields zero survivors. -/
def lowScoreRow : List ℚ := [5, 5, 10, 10, 1/10] ++ List.replicate 51 2

section Lemmas

/-- Option application never touches the in-flight marker. -/
theorem applyOptions_initializingPromise (st : DetectorState) (opts : InitOptions) :
    (applyOptions st opts).initializingPromise = st.initializingPromise := by
  rcases opts with ⟨m, b, s⟩
  cases m <;> cases b <;> cases s <;> rfl

/-- Option application never touches the loaded-model field. -/
theorem applyOptions_loadedModelType (st : DetectorState) (opts : InitOptions) :
    (applyOptions st opts).loadedModelType = st.loadedModelType := by
  rcases opts with ⟨m, b, s⟩
  cases m <;> cases b <;> cases s <;> rfl

/-- Passing only a model option overwrites exactly the modelType field. -/
theorem applyOptions_model_only (st : DetectorState) (m : TfjsModelType) :
    applyOptions st { model := some m } = { st with modelType := m } := rfl

/-- Math.round is monotone. -/
theorem jsRound_mono {a b : ℚ} (h : a ≤ b) : jsRound a ≤ jsRound b :=
  Int.floor_le_floor (add_le_add_right h _)

/-- Math.round of an integer-valued rational is that integer. -/
theorem jsRound_natCast (n : ℕ) : jsRound (n : ℚ) = (n : ℤ) := by
  unfold jsRound
  rw [show ((n : ℚ) + 1/2) = ((n : ℤ) : ℚ) + 1/2 by push_cast; ring,
    Int.floor_int_add]
  norm_num

/-- Greedy selection of an empty candidate list is empty at any fuel. -/
theorem nmsGreedy_nil (fuel : ℕ) (t : ℚ) : nmsGreedy fuel [] t = [] := by
  cases fuel <;> rfl

/-- Unfolding equation of the greedy selection at positive fuel. -/
theorem nmsGreedy_succ (fuel : ℕ) (cands : List (ℕ × Box × ℚ)) (t : ℚ) :
    nmsGreedy (fuel + 1) cands t =
      match pickBest cands with
      | none => []
      | some best =>
        best.1 :: nmsGreedy fuel (suppressBy best t cands) t := rfl

/-- The letterbox scale is positive for positive dimensions. -/
theorem computeLetterbox_scale_pos (w h S : ℕ) (hw : 0 < w) (hh : 0 < h)
    (hS : 0 < S) : 0 < (computeLetterbox w h S).scale := by
  have hsc : (computeLetterbox w h S).scale = min ((S : ℚ) / w) ((S : ℚ) / h) :=
    rfl
  rw [hsc]
  exact lt_min
    (div_pos (by exact_mod_cast hS) (by exact_mod_cast hw))
    (div_pos (by exact_mod_cast hS) (by exact_mod_cast hh))

/-- Pixel-space round trip through any letterbox with nonzero scale. -/
theorem mapFromLetterbox_forward (x y : ℚ) (srcW srcH : ℕ) (L : Letterbox)
    (hs : L.scale ≠ 0) :
    mapFromLetterbox (letterboxForward x y L).1 (letterboxForward x y L).2
      srcW srcH L false = (x, y) := by
  unfold mapFromLetterbox letterboxForward
  simp only [Bool.false_eq_true, if_false, Prod.mk.injEq]
  constructor <;> (field_simp)

/-- Normalized-space round trip through any letterbox with nonzero scale
and nonzero target size. -/
theorem mapFromLetterbox_forward_normalized (x y : ℚ) (srcW srcH : ℕ)
    (L : Letterbox) (hs : L.scale ≠ 0) (hT : (L.targetSize : ℚ) ≠ 0) :
    mapFromLetterbox (letterboxForwardNormalized x y L).1
      (letterboxForwardNormalized x y L).2 srcW srcH L true = (x, y) := by
  unfold mapFromLetterbox letterboxForwardNormalized
  simp only [if_true, Prod.mk.injEq]
  constructor <;> (field_simp)

end Lemmas

/-- Claim C1: a detect call on a detector with no adapter loaded does not
throw: it returns a PoseResult with empty keypoints and keypoints3D and
the caller-supplied timestamp, and signals only the non-fatal
console warning. -/
theorem detect_without_adapter_is_empty (st : DetectorState) (srcW srcH : ℕ)
    (yoloRows : List (List ℚ)) (estimatedPoses : List EstimatedPose)
    (ts : Option ℚ) (hd : st.detector = none) (hy : st.yoloDetector = none) :
    detect st srcW srcH yoloRows estimatedPoses ts =
      .ok ({ keypoints := [], keypoints3D := some [], timestamp := ts },
           ["Detector not initialized, returning empty result."]) := by
  simp [detect, hd, hy]

/-- Witness for C1 at a fresh detector state and concrete inputs. -/
theorem detect_without_adapter_is_empty_witness :
    detect {} 400 300 [] [] (some 3) =
      .ok ({ keypoints := [], keypoints3D := some [], timestamp := some 3 },
           ["Detector not initialized, returning empty result."]) :=
  detect_without_adapter_is_empty {} 400 300 [] [] (some 3) rfl rfl

/-- Claim C2: an initialize issued while a load is in flight returns the
same in-flight operation and starts no second load; completion of a
load, successful or failed, clears the in-flight marker to none; and in
the concrete two-caller scenario for one model, the first call starts
the single load, the second joins it, and completion leaves the model
loaded with the marker cleared. -/
theorem initialize_inflight_load_shared :
    (∀ (st : DetectorState) (opts : InitOptions) (p fresh : ℕ),
        st.initializingPromise = some p →
        (initializeEntry st opts fresh).2 = .awaitExisting p ∧
        (initializeEntry st opts fresh).1.initializingPromise = some p) ∧
    (∀ (st : DetectorState) (outcome : LoadOutcome),
        (completeInitialize st outcome).initializingPromise = none) ∧
    ((initializeEntry {} { model := some TfjsModelType.movenetLightning } 0).2 =
        .startLoad 0 ∧
      (initializeEntry
          (initializeEntry {} { model := some TfjsModelType.movenetLightning } 0).1
          { model := some TfjsModelType.movenetLightning } 1).2 =
        .awaitExisting 0 ∧
      (completeInitialize
          (initializeEntry {} { model := some TfjsModelType.movenetLightning } 0).1
          (.success 42)).loadedModelType = some TfjsModelType.movenetLightning ∧
      (completeInitialize
          (initializeEntry {} { model := some TfjsModelType.movenetLightning } 0).1
          (.success 42)).initializingPromise = none) := by
  refine ⟨?_, ?_, ?_⟩
  · intro st opts p fresh hp
    simp [initializeEntry, applyOptions_initializingPromise, hp]
  · intro st outcome
    rfl
  · refine ⟨rfl, by decide, by decide, by decide⟩

/-- Witness for C2 at a concrete in-flight state. -/
theorem initialize_inflight_load_shared_witness :
    (initializeEntry { initializingPromise := some 7 } {} 9).2 =
        InitAction.awaitExisting 7 ∧
      (completeInitialize { initializingPromise := some 7 } .failure).initializingPromise =
        none :=
  ⟨(initialize_inflight_load_shared.1 { initializingPromise := some 7 } {} 7 9
      rfl).1,
    initialize_inflight_load_shared.2.1 { initializingPromise := some 7 } .failure⟩

/-- Claim C9: with no load in flight, an initialize whose requested model
equals the currently loaded model is a no-op: it skips without starting
a load and changes no state beyond re-applying the option. -/
theorem initialize_same_model_noop (st : DetectorState) (m : TfjsModelType)
    (fresh : ℕ) (hp : st.initializingPromise = none)
    (hl : st.loadedModelType = some m) :
    (initializeEntry st { model := some m } fresh).2 = .sameModelSkip ∧
    (initializeEntry st { model := some m } fresh).1 =
      { st with modelType := m } := by
  constructor <;>
    simp [initializeEntry, applyOptions_model_only, hp, hl]

/-- Witness for C9: after a successful sequential load of
movenet-lightning, a second initialize with the same model skips. -/
theorem initialize_same_model_noop_witness :
    (initializeEntry afterMovenetLoad
        { model := some TfjsModelType.movenetLightning } 2).2 =
      InitAction.sameModelSkip ∧
    (initializeEntry afterMovenetLoad
        { model := some TfjsModelType.movenetLightning } 2).1 =
      { afterMovenetLoad with modelType := TfjsModelType.movenetLightning } :=
  initialize_same_model_noop afterMovenetLoad TfjsModelType.movenetLightning 2
    rfl rfl

/-- Claim C8 (code evaluated at the failing input): close only nulls the
posedetection handle.  After a successful movenet-lightning load and a
close, loadedModelType is still set, so a same-model initialize hits the
no-op branch and starts no fresh load even though the handle is gone;
and after a yolo11 load, close leaves the graph-model handle entirely
in place. -/
theorem close_does_not_reset_to_unloaded :
    (close afterMovenetLoad).detector = none ∧
    (close afterMovenetLoad).loadedModelType =
      some TfjsModelType.movenetLightning ∧
    (initializeEntry (close afterMovenetLoad)
        { model := some TfjsModelType.movenetLightning } 2).2 =
      InitAction.sameModelSkip ∧
    (close afterYoloLoad).yoloDetector = some 1 := by
  refine ⟨rfl, rfl, ?_, rfl⟩
  decide

/-- Claim C10 (code evaluated on the successful decode path): the tensors
allocated outside the two tidy scopes survive the detect call, because
the finally block disposes only the input tensor.  Starting from an
empty heap, ten intermediates are still live at exit. -/
theorem detectYolo11_intermediates_outlive_detect :
    (detectYolo11TensorTrace { live := [], next := 0 }).2.live =
      [5, 6, 16, 17, 18, 19, 20, 21, 22, 23] ∧
    (detectYolo11TensorTrace { live := [], next := 0 }).2.live ≠ [] := by
  refine ⟨by decide, by decide⟩

/-- Claim C7 (code evaluated at the failing input): on a frame whose only
candidate row scores below the selection score threshold, selection
yields zero survivors, idxArr[0] is undefined, and the decode throws at
the gather instead of returning an empty PoseResult. -/
theorem detectYolo11_zero_survivors_throws :
    detectYolo11Decode 400 300 [lowScoreRow] (some 5) =
      .error "gather: indices is undefined" ∧
    nonMaxSuppression ([lowScoreRow].map rowBox) ([lowScoreRow].map rowScore)
      50 (45/100) (3/10) = [] := by
  have hscore : rowScore lowScoreRow = 1/10 := rfl
  have key : nonMaxSuppression [rowBox lowScoreRow] [rowScore lowScoreRow]
      50 (45/100) (3/10) = [] := by
    norm_num [nonMaxSuppression, withIndices, filterAboveScore, hscore,
      nmsGreedy_nil]
  exact ⟨by simp [detectYolo11Decode, key], by simpa using key⟩

/-- Claim C3: for a yolo11 keypoint triple (x, y, v), the decode treats
(x, y) as normalized exactly when x ≤ 1 and y ≤ 1, decided for this
keypoint alone; a normalized keypoint is scaled by the target size, every
keypoint is mapped through the letterbox inverse
((coordinate - offset) / scale), and v is passed through unchanged as
the visibility. -/
theorem yolo11_keypoint_restoration (srcW srcH : ℕ) (letter : Letterbox)
    (x y v : ℚ) :
    mapYoloKeypoint srcW srcH letter (x, y, v) =
      { x := ((if x ≤ 1 ∧ y ≤ 1 then x * (letter.targetSize : ℚ) else x) -
              (letter.dx : ℚ)) / letter.scale
        y := ((if x ≤ 1 ∧ y ≤ 1 then y * (letter.targetSize : ℚ) else y) -
              (letter.dy : ℚ)) / letter.scale
        visibility := some v } := by
  unfold mapYoloKeypoint mapFromLetterbox
  by_cases hxy : x ≤ 1 ∧ y ≤ 1 <;> simp [hxy]

/-- Claim C4: for positive (sourceWidth, sourceHeight, S), the letterbox
transform satisfies resizedWidth ≤ S, resizedHeight ≤ S, and at least
one of them equals S (aspect-fit, not stretch). -/
theorem computeLetterbox_aspect_fit (w h S : ℕ) (hw : 0 < w) (hh : 0 < h)
    ( _hS : 0 < S) :
    (computeLetterbox w h S).resizedWidth ≤ (S : ℤ) ∧
    (computeLetterbox w h S).resizedHeight ≤ (S : ℤ) ∧
    ((computeLetterbox w h S).resizedWidth = (S : ℤ) ∨
     (computeLetterbox w h S).resizedHeight = (S : ℤ)) := by
  have hw' : (0 : ℚ) < w := by exact_mod_cast hw
  have hh' : (0 : ℚ) < h := by exact_mod_cast hh
  have hwmul : (w : ℚ) * ((S : ℚ) / (w : ℚ)) = (S : ℚ) := by field_simp
  have hhmul : (h : ℚ) * ((S : ℚ) / (h : ℚ)) = (S : ℚ) := by field_simp
  have hrw : (computeLetterbox w h S).resizedWidth =
      jsRound ((w : ℚ) * min ((S : ℚ) / w) ((S : ℚ) / h)) := rfl
  have hrh : (computeLetterbox w h S).resizedHeight =
      jsRound ((h : ℚ) * min ((S : ℚ) / w) ((S : ℚ) / h)) := rfl
  have h1 : (w : ℚ) * min ((S : ℚ) / w) ((S : ℚ) / h) ≤ (S : ℚ) := by
    calc (w : ℚ) * min ((S : ℚ) / w) ((S : ℚ) / h)
        ≤ (w : ℚ) * ((S : ℚ) / w) :=
          mul_le_mul_of_nonneg_left (min_le_left _ _) (le_of_lt hw')
      _ = (S : ℚ) := hwmul
  have h2 : (h : ℚ) * min ((S : ℚ) / w) ((S : ℚ) / h) ≤ (S : ℚ) := by
    calc (h : ℚ) * min ((S : ℚ) / w) ((S : ℚ) / h)
        ≤ (h : ℚ) * ((S : ℚ) / h) :=
          mul_le_mul_of_nonneg_left (min_le_right _ _) (le_of_lt hh')
      _ = (S : ℚ) := hhmul
  refine ⟨?_, ?_, ?_⟩
  · rw [hrw, ← jsRound_natCast S]
    exact jsRound_mono h1
  · rw [hrh, ← jsRound_natCast S]
    exact jsRound_mono h2
  · rcases min_cases ((S : ℚ) / w) ((S : ℚ) / h) with ⟨heq, _⟩ | ⟨heq, _⟩
    · left
      rw [hrw, heq, hwmul, jsRound_natCast]
    · right
      rw [hrh, heq, hhmul, jsRound_natCast]

/-- Witness for C4 at the spec's end-to-end geometry (400 x 300 into
S = 640). -/
theorem computeLetterbox_aspect_fit_witness :
    (computeLetterbox 400 300 640).resizedWidth ≤ (640 : ℤ) ∧
    (computeLetterbox 400 300 640).resizedHeight ≤ (640 : ℤ) ∧
    ((computeLetterbox 400 300 640).resizedWidth = (640 : ℤ) ∨
     (computeLetterbox 400 300 640).resizedHeight = (640 : ℤ)) :=
  computeLetterbox_aspect_fit 400 300 640 (by norm_num) (by norm_num)
    (by norm_num)

/-- Claim C5: mapping a point through the letterbox forward transform and
then through the letterbox inverse returns the original point exactly
(so in particular within floating-point tolerance), for both the
pixel-space and the normalized input conventions. -/
theorem letterbox_round_trip (w h S : ℕ) (x y : ℚ) (hw : 0 < w)
    (hh : 0 < h) (hS : 0 < S) :
    mapFromLetterbox (letterboxForward x y (computeLetterbox w h S)).1
        (letterboxForward x y (computeLetterbox w h S)).2 w h
        (computeLetterbox w h S) false = (x, y) ∧
    mapFromLetterbox
        (letterboxForwardNormalized x y (computeLetterbox w h S)).1
        (letterboxForwardNormalized x y (computeLetterbox w h S)).2 w h
        (computeLetterbox w h S) true = (x, y) := by
  have hs : (computeLetterbox w h S).scale ≠ 0 :=
    ne_of_gt (computeLetterbox_scale_pos w h S hw hh hS)
  have hTeq : (computeLetterbox w h S).targetSize = S := rfl
  have hT : ((computeLetterbox w h S).targetSize : ℚ) ≠ 0 := by
    rw [hTeq]
    exact_mod_cast hS.ne'
  exact ⟨mapFromLetterbox_forward x y w h _ hs,
    mapFromLetterbox_forward_normalized x y w h _ hs hT⟩

/-- Witness for C5 at the spec's end-to-end geometry and the image
center (200, 150). -/
theorem letterbox_round_trip_witness :
    mapFromLetterbox
        (letterboxForward 200 150 (computeLetterbox 400 300 640)).1
        (letterboxForward 200 150 (computeLetterbox 400 300 640)).2 400 300
        (computeLetterbox 400 300 640) false = (200, 150) ∧
    mapFromLetterbox
        (letterboxForwardNormalized 200 150 (computeLetterbox 400 300 640)).1
        (letterboxForwardNormalized 200 150 (computeLetterbox 400 300 640)).2
        400 300 (computeLetterbox 400 300 640) true = (200, 150) :=
  letterbox_round_trip 400 300 640 200 150 (by norm_num) (by norm_num)
    (by norm_num)

/-- Counterexample to claim C6 as stated: on a concrete frame holding a
degenerate candidate row (w = 0, h = 0) with top score next to a
well-formed row, selection emits the degenerate row's index first and
the decode returns that row's keypoints — so degenerate rows are not
excluded from the candidate set before selection runs. -/
theorem degenerate_candidate_not_excluded :
    rowChannel degenerateRow 2 ≤ 0 ∧
    nonMaxSuppression [rowBox degenerateRow, rowBox healthyRow]
        [rowScore degenerateRow, rowScore healthyRow] 50 (45/100) (3/10) =
      [0, 1] ∧
    detectYolo11Decode 400 300 [degenerateRow, healthyRow] none =
      .ok { keypoints := (rowLandmarks degenerateRow).map
              (mapYoloKeypoint 400 300 (computeLetterbox 400 300 640))
            keypoints3D := some []
            timestamp := none } := by
  have hs0 : rowScore degenerateRow = 9/10 := rfl
  have hs1 : rowScore healthyRow = 1/2 := rfl
  have hb0 : rowBox degenerateRow = { y1 := 5, x1 := 5, y2 := 5, x2 := 5 } := by
    have hb : rowBox degenerateRow =
        { y1 := 5 - 0/2, x1 := 5 - 0/2, y2 := 5 - 0/2 + 0,
          x2 := 5 - 0/2 + 0 } := rfl
    rw [hb]
    simp only [Box.mk.injEq]
    norm_num
  have hb1 : rowBox healthyRow =
      { y1 := 60, x1 := 75, y2 := 140, x2 := 125 } := by
    have hb : rowBox healthyRow =
        { y1 := 100 - 80/2, x1 := 100 - 50/2, y2 := 100 - 80/2 + 80,
          x2 := 100 - 50/2 + 50 } := rfl
    rw [hb]
    simp only [Box.mk.injEq]
    norm_num
  have hiou : iou { y1 := 60, x1 := 75, y2 := 140, x2 := 125 }
      { y1 := 5, x1 := 5, y2 := 5, x2 := 5 } = 0 := by
    norm_num [iou, Box.area, min_def, max_def]
  have hcands : filterAboveScore (3/10)
      (withIndices 0 [rowBox degenerateRow, rowBox healthyRow]
        [rowScore degenerateRow, rowScore healthyRow]) =
      [(0, rowBox degenerateRow, rowScore degenerateRow),
       (1, rowBox healthyRow, rowScore healthyRow)] := by
    norm_num [withIndices, filterAboveScore, hs0, hs1]
  have hpick : pickBest
      [(0, rowBox degenerateRow, rowScore degenerateRow),
       (1, rowBox healthyRow, rowScore healthyRow)] =
      some (0, rowBox degenerateRow, rowScore degenerateRow) := by
    norm_num [pickBest, hs0, hs1]
  have hsup : suppressBy (0, rowBox degenerateRow, rowScore degenerateRow)
      (45/100)
      [(0, rowBox degenerateRow, rowScore degenerateRow),
       (1, rowBox healthyRow, rowScore healthyRow)] =
      [(1, rowBox healthyRow, rowScore healthyRow)] := by
    norm_num [suppressBy, hb0, hb1, hiou]
  have hpick1 : pickBest [(1, rowBox healthyRow, rowScore healthyRow)] =
      some (1, rowBox healthyRow, rowScore healthyRow) := rfl
  have hsup1 : suppressBy (1, rowBox healthyRow, rowScore healthyRow)
      (45/100) [(1, rowBox healthyRow, rowScore healthyRow)] = [] := by
    norm_num [suppressBy]
  have key : nonMaxSuppression [rowBox degenerateRow, rowBox healthyRow]
      [rowScore degenerateRow, rowScore healthyRow] 50 (45/100) (3/10) =
      [0, 1] := by
    show nmsGreedy (49 + 1)
      (filterAboveScore (3/10)
        (withIndices 0 [rowBox degenerateRow, rowBox healthyRow]
          [rowScore degenerateRow, rowScore healthyRow])) (45/100) = [0, 1]
    rw [hcands, nmsGreedy_succ, hpick]
    simp only
    rw [hsup]
    rw [show (49 : ℕ) = 48 + 1 from rfl, nmsGreedy_succ, hpick1]
    simp only
    rw [hsup1, nmsGreedy_nil]
  refine ⟨by norm_num [rowChannel, degenerateRow], key, ?_⟩
  simp [detectYolo11Decode, key]

/-- Claim C6 (amended): the decode excludes no candidate row before
selection — the candidate set handed to non-max suppression is rowBox of
every row — and a box with non-positive area has IoU 0 with every box,
so a degenerate candidate is never suppressed by selection and can
itself be selected. -/
theorem decode_candidates_unfiltered :
    (∀ rows : List (List ℚ), (rows.map rowBox).length = rows.length) ∧
    (∀ a b : Box, a.area ≤ 0 → iou a b = 0) := by
  constructor
  · intro rows
    simp
  · intro a b ha
    simp only [Box.area] at ha
    have hmul := mul_nonpos_iff.mp ha
    rcases hmul with ⟨h1, h2⟩ | ⟨h1, h2⟩
    · have hW : min a.x2 b.x2 - max a.x1 b.x1 ≤ 0 := by
        have t1 : min a.x2 b.x2 ≤ a.x2 := min_le_left _ _
        have t2 : a.x1 ≤ max a.x1 b.x1 := le_max_left _ _
        linarith
      have hinter : max 0 (min a.y2 b.y2 - max a.y1 b.y1) *
          max 0 (min a.x2 b.x2 - max a.x1 b.x1) = 0 := by
        rw [max_eq_left hW]
        ring
      simp only [iou]
      rw [hinter]
      split <;> simp
    · have hH : min a.y2 b.y2 - max a.y1 b.y1 ≤ 0 := by
        have t1 : min a.y2 b.y2 ≤ a.y2 := min_le_left _ _
        have t2 : a.y1 ≤ max a.y1 b.y1 := le_max_left _ _
        linarith
      have hinter : max 0 (min a.y2 b.y2 - max a.y1 b.y1) *
          max 0 (min a.x2 b.x2 - max a.x1 b.x1) = 0 := by
        rw [max_eq_left hH]
        ring
      simp only [iou]
      rw [hinter]
      split <;> simp

/-- Witness for the amended C6 at a concrete row pair and a concrete
degenerate box. -/
theorem decode_candidates_unfiltered_witness :
    ([degenerateRow, healthyRow].map rowBox).length = 2 ∧
    iou { y1 := 5, x1 := 5, y2 := 5, x2 := 5 }
      { y1 := 60, x1 := 75, y2 := 140, x2 := 125 } = 0 :=
  ⟨(decode_candidates_unfiltered.1 [degenerateRow, healthyRow]).trans rfl,
    decode_candidates_unfiltered.2 _ _ (by norm_num [Box.area])⟩

end Reptor
